import Mathlib

/-!
Shallow embedding of the hotel-management backend (`backend/server.py`):
the data model and the booking/payment operations, together with theorems
checking the specification's claims about availability, the booking
lifecycle, and payment reconciliation.

Conventions of the embedding:
* datetimes are integers (seconds since the Unix epoch); Python's
  `(check_out - check_in).days` is floor division by 86400 (`Int.fdiv`);
* monetary floats are rationals (the arithmetic the code performs on them
  here is exact);
* MongoDB `find_one` is `List.find?`; `update_one` updates the first
  matching record (`updateOne` below);
* generated identifiers (uuid4, Stripe session ids) and clock reads are
  explicit parameters;
* outbound e-mail (`send_email` logs and swallows failures) is modelled by
  counters on the state; outbound calls to the Stripe provider are counted
  in `providerCalls`, and the provider's answer is an explicit parameter;
* `HTTPException(status_code, detail)` is `Except.error ⟨code, detail⟩`.
-/

structure User where
  id : String
  name : String
  email : String
  role : String
deriving DecidableEq

structure HotelProperty where
  id : String
  name : String
  pricePerNight : ℚ
deriving DecidableEq

structure Booking where
  id : String
  userId : String
  propertyId : String
  propertyName : String
  checkIn : Int
  checkOut : Int
  totalPrice : ℚ
  status : String
  paymentStatus : String
  stripeSessionId : Option String
  createdAt : Int
deriving DecidableEq

structure PaymentTransaction where
  id : String
  bookingId : String
  userId : String
  sessionId : String
  amount : ℚ
  currency : String
  paymentStatus : String
  metaBookingId : String
  createdAt : Int
  updatedAt : Int
deriving DecidableEq

structure HtErr where
  code : Nat
  detail : String
deriving DecidableEq

structure ProviderStatus where
  status : String
  paymentStatus : String
  amountTotal : Int
  currency : String
  metaBookingId : String
deriving DecidableEq

structure StatusResp where
  status : String
  paymentStatus : String
  amountTotal : Int
  currency : String
  metaBookingId : String
deriving DecidableEq

structure WebhookEvent where
  eventType : String
  sessionId : String
  paymentStatus : String
deriving DecidableEq

structure DB where
  users : List User
  properties : List HotelProperty
  bookings : List Booking
  transactions : List PaymentTransaction
  confirmEmails : Nat
  cancelEmails : Nat
  providerCalls : Nat
deriving DecidableEq

deriving instance DecidableEq for Except

/-- MongoDB `update_one`: updates the first record matching the filter. -/
def updateOne {α : Type} (p : α → Bool) (f : α → α) : List α → List α
  | [] => []
  | a :: as => if p a then f a :: as else a :: updateOne p f as

/-- Python `int()` on a rational: truncation toward zero. -/
def pyTrunc (q : ℚ) : Int := if q < 0 then -((-q).floor) else q.floor

/-- Interval-overlap condition used by the availability queries: the
requested half-open interval `[a,b)` against a booking's `[c,d)`, i.e.
`check_in < check_out_req AND check_out > check_in_req` in Mongo terms. -/
def overlaps (a b c d : Int) : Bool := decide (a < d) && decide (c < b)

/-- The Mongo filter of `check_availability` / `create_booking`:
`{property_id, status: "confirmed", check_in < reqOut, check_out > reqIn}`. -/
def blocksBooking (propertyId : String) (reqIn reqOut : Int) (b : Booking) : Bool :=
  b.propertyId == propertyId && b.status == "confirmed"
    && overlaps reqIn reqOut b.checkIn b.checkOut

/-- Python `(check_out - check_in).days`: floor of the difference in days. -/
def nightsOf (checkIn checkOut : Int) : Int := Int.fdiv (checkOut - checkIn) 86400

def terminalStates : List String := ["paid", "failed", "expired"]

def successEventTypes : List String :=
  ["checkout.session.completed", "payment_intent.succeeded"]

/-- `GET /bookings/property/{property_id}/availability`. -/
def check_availability (db : DB) (propertyId : String) (checkIn checkOut : Int) : Bool :=
  (db.bookings.find? (blocksBooking propertyId checkIn checkOut)).isNone

/-- `POST /bookings` (`create_booking`): validates the property, the night
count and availability, then inserts a `(pending, pending)` booking. -/
def create_booking (db : DB) (currentUser : User) (propertyId : String)
    (checkIn checkOut : Int) (newId : String) (now : Int) :
    Except HtErr (Booking × DB) :=
  match db.properties.find? (fun p => p.id == propertyId) with
  | none => .error ⟨404, "Property not found"⟩
  | some prop =>
    if nightsOf checkIn checkOut ≤ 0 then
      .error ⟨400, "Check-out must be after check-in"⟩
    else if (db.bookings.find? (blocksBooking propertyId checkIn checkOut)).isSome then
      .error ⟨400, "Property not available for selected dates"⟩
    else
      let booking : Booking :=
        { id := newId, userId := currentUser.id, propertyId := propertyId
          propertyName := prop.name, checkIn := checkIn, checkOut := checkOut
          totalPrice := (nightsOf checkIn checkOut : ℚ) * prop.pricePerNight
          status := "pending", paymentStatus := "pending"
          stripeSessionId := none, createdAt := now }
      .ok (booking, { db with bookings := db.bookings ++ [booking] })

/-- `PUT /bookings/{booking_id}/cancel` (`cancel_booking`): owner-or-admin
check, then sets `status = "cancelled"` and sends a cancellation e-mail. -/
def cancel_booking (db : DB) (currentUser : User) (bookingId : String) :
    Except HtErr (String × DB) :=
  match db.bookings.find? (fun b => b.id == bookingId) with
  | none => .error ⟨404, "Booking not found"⟩
  | some booking =>
    if booking.userId != currentUser.id && currentUser.role != "admin" then
      .error ⟨403, "Not authorized to cancel this booking"⟩
    else
      let db1 := { db with
        bookings := updateOne (fun b => b.id == bookingId)
          (fun b => { b with status := "cancelled" }) db.bookings }
      .ok ("Booking cancelled successfully",
        { db1 with cancelEmails := db1.cancelEmails + 1 })

/-- `POST /payment/checkout/session` (`create_stripe_checkout_session`):
owner check, `AlreadyPaid` guard, then one provider call that yields
`sessionId`; inserts a pending `PaymentTransaction` whose metadata carries
the booking id, and stamps the booking with the session id. -/
def create_stripe_checkout_session (db : DB) (currentUser : User)
    (bookingId : String) (sessionId newTxnId : String) (now : Int) :
    Except HtErr (String × DB) :=
  match db.bookings.find? (fun b => b.id == bookingId) with
  | none => .error ⟨404, "Booking not found"⟩
  | some booking =>
    if booking.userId != currentUser.id then
      .error ⟨403, "Not authorized"⟩
    else if booking.paymentStatus == "paid" then
      .error ⟨400, "Booking already paid"⟩
    else
      let txn : PaymentTransaction :=
        { id := newTxnId, bookingId := bookingId, userId := currentUser.id
          sessionId := sessionId, amount := booking.totalPrice
          currency := "usd", paymentStatus := "pending"
          metaBookingId := bookingId, createdAt := now, updatedAt := now }
      let db1 := { db with
        providerCalls := db.providerCalls + 1
        transactions := db.transactions ++ [txn]
        bookings := updateOne (fun b => b.id == bookingId)
          (fun b => { b with stripeSessionId := some sessionId }) db.bookings }
      .ok (sessionId, db1)

/-- `GET /payment/checkout/status/{session_id}` (`get_checkout_status`):
owner check; if the stored transaction is already terminal, returns the
cached record without contacting the provider; otherwise one provider call
(`providerResult` is its answer), the transaction is updated, and a "paid"
result confirms the booking and sends the confirmation e-mail (if the user
record is found), unless the booking is already confirmed. -/
def get_checkout_status (db : DB) (currentUser : User) (sessionId : String)
    (providerResult : ProviderStatus) (now : Int) :
    Except HtErr (StatusResp × DB) :=
  match db.transactions.find? (fun t => t.sessionId == sessionId) with
  | none => .error ⟨404, "Payment transaction not found"⟩
  | some t =>
    if t.userId != currentUser.id then
      .error ⟨403, "Not authorized"⟩
    else if terminalStates.contains t.paymentStatus then
      .ok ({ status := t.paymentStatus, paymentStatus := t.paymentStatus
             amountTotal := pyTrunc (t.amount * 100), currency := t.currency
             metaBookingId := t.metaBookingId }, db)
    else
      let db1 := { db with
        providerCalls := db.providerCalls + 1
        transactions := updateOne (fun x => x.sessionId == sessionId)
          (fun x => { x with paymentStatus := providerResult.paymentStatus
                             updatedAt := now }) db.transactions }
      let db2 :=
        if providerResult.paymentStatus == "paid" then
          match db1.bookings.find? (fun b => b.id == t.metaBookingId) with
          | none => db1
          | some booking =>
            if booking.status != "confirmed" then
              let db3 := { db1 with
                bookings := updateOne (fun b => b.id == t.metaBookingId)
                  (fun b => { b with status := "confirmed", paymentStatus := "paid" })
                  db1.bookings }
              match db3.users.find? (fun w => w.id == t.userId) with
              | none => db3
              | some _ => { db3 with confirmEmails := db3.confirmEmails + 1 }
            else db1
        else db1
      .ok ({ status := providerResult.status
             paymentStatus := providerResult.paymentStatus
             amountTotal := providerResult.amountTotal
             currency := providerResult.currency
             metaBookingId := providerResult.metaBookingId }, db2)

/-- `POST /webhook/stripe` (`stripe_webhook`): for success event types, if
the transaction exists and is not already `paid`, writes the event's
payment status to the transaction and sets the booking to
`(confirmed, paid)`; no e-mail is sent on this path. -/
def stripe_webhook (db : DB) (ev : WebhookEvent) (now : Int) :
    Except HtErr (String × DB) :=
  if successEventTypes.contains ev.eventType then
    match db.transactions.find? (fun t => t.sessionId == ev.sessionId) with
    | none => .ok ("success", db)
    | some t =>
      if t.paymentStatus != "paid" then
        let db1 := { db with
          transactions := updateOne (fun x => x.sessionId == ev.sessionId)
            (fun x => { x with paymentStatus := ev.paymentStatus
                               updatedAt := now }) db.transactions }
        let db2 := { db1 with
          bookings := updateOne (fun b => b.id == t.metaBookingId)
            (fun b => { b with status := "confirmed", paymentStatus := "paid" })
            db1.bookings }
        .ok ("success", db2)
      else .ok ("success", db)
  else .ok ("success", db)

/-- The operations of the claims, as a single step type. -/
inductive Op where
  | createBooking (user : User) (propertyId : String)
      (checkIn checkOut : Int) (newId : String) (now : Int)
  | cancelBooking (user : User) (bookingId : String)
  | createSession (user : User) (bookingId sessionId newTxnId : String) (now : Int)
  | pollStatus (user : User) (sessionId : String) (res : ProviderStatus) (now : Int)
  | webhook (ev : WebhookEvent) (now : Int)
deriving DecidableEq

/-- Applies one operation to the store; a request that errors leaves the
store unchanged (every error above is raised before any write). -/
def applyOp (db : DB) (op : Op) : DB :=
  match op with
  | .createBooking u pid ci co nid now =>
    match create_booking db u pid ci co nid now with
    | .ok (_, db') => db'
    | .error _ => db
  | .cancelBooking u bid =>
    match cancel_booking db u bid with
    | .ok (_, db') => db'
    | .error _ => db
  | .createSession u bid sid tid now =>
    match create_stripe_checkout_session db u bid sid tid now with
    | .ok (_, db') => db'
    | .error _ => db
  | .pollStatus u sid res now =>
    match get_checkout_status db u sid res now with
    | .ok (_, db') => db'
    | .error _ => db
  | .webhook ev now =>
    match stripe_webhook db ev now with
    | .ok (_, db') => db'
    | .error _ => db

/-- The spec's booking invariant: `status = confirmed` implies
`payment_status = paid`. -/
def BookingInv (db : DB) : Prop :=
  ∀ b ∈ db.bookings, b.status = "confirmed" → b.paymentStatus = "paid"

instance : DecidablePred BookingInv := by
  intro db
  unfold BookingInv
  infer_instance

/-- Whether an operation carries a payment-success result (a provider poll
answering "paid", or a success-typed webhook event). -/
def isPaymentSuccessOp : Op → Bool
  | .pollStatus _ _ res _ => res.paymentStatus == "paid"
  | .webhook ev _ => successEventTypes.contains ev.eventType
  | _ => false

/-- View of a booking list keeping each booking's id and session id. -/
def sessionView (l : List Booking) : List (String × Option String) :=
  l.map (fun b => (b.id, b.stripeSessionId))

/-- View of a booking list keeping each booking's id and total price. -/
def priceView (l : List Booking) : List (String × ℚ) :=
  l.map (fun b => (b.id, b.totalPrice))

/-! ### List lemmas about `updateOne` -/

theorem mem_updateOne {α : Type} {p : α → Bool} {f : α → α} {l : List α} {x : α}
    (hx : x ∈ updateOne p f l) : x ∈ l ∨ ∃ y, y ∈ l ∧ x = f y := by
  induction l with
  | nil => simp [updateOne] at hx
  | cons a as ih =>
    by_cases h : p a
    · simp only [updateOne, h, if_pos] at hx
      rcases List.mem_cons.mp hx with hx | hx
      · exact Or.inr ⟨a, List.mem_cons_self a as, hx⟩
      · exact Or.inl (List.mem_cons_of_mem a hx)
    · simp only [updateOne, h, if_neg, Bool.false_eq_true, not_false_iff] at hx
      rcases List.mem_cons.mp hx with hx | hx
      · exact Or.inl (hx ▸ List.mem_cons_self a as)
      · rcases ih hx with h1 | ⟨y, hy, hxy⟩
        · exact Or.inl (List.mem_cons_of_mem a h1)
        · exact Or.inr ⟨y, List.mem_cons_of_mem a hy, hxy⟩

theorem forall_mem_updateOne {α : Type} {P : α → Prop} {p : α → Bool} {f : α → α}
    {l : List α} (h : ∀ a ∈ l, P a) (hf : ∀ a ∈ l, P (f a)) :
    ∀ x ∈ updateOne p f l, P x := by
  intro x hx
  rcases mem_updateOne hx with hx | ⟨y, hy, rfl⟩
  · exact h x hx
  · exact hf y hy

theorem find?_updateOne_self {α : Type} {p : α → Bool} {f : α → α} {l : List α} {t : α}
    (h : l.find? p = some t) (hpres : ∀ a, p (f a) = p a) :
    (updateOne p f l).find? p = some (f t) := by
  induction l with
  | nil => simp [List.find?] at h
  | cons a as ih =>
    by_cases hpa : p a
    · rw [List.find?_cons_of_pos _ hpa] at h
      cases h
      simp only [updateOne, hpa, if_pos]
      exact List.find?_cons_of_pos _ (by rw [hpres]; exact hpa)
    · rw [List.find?_cons_of_neg _ hpa] at h
      simp only [updateOne, hpa, if_neg, Bool.false_eq_true, not_false_iff]
      rw [List.find?_cons_of_neg _ hpa]
      exact ih h

theorem map_updateOne_eq {α β : Type} {p : α → Bool} {f : α → α} (g : α → β)
    {l : List α} (hg : ∀ a, g (f a) = g a) : (updateOne p f l).map g = l.map g := by
  induction l with
  | nil => rfl
  | cons a as ih =>
    by_cases hpa : p a
    · simp [updateOne, hpa, hg]
    · simp [updateOne, hpa, ih]


/-- The idempotence short-circuit of `get_checkout_status`: a terminal
stored transaction is answered from the cache, with no state change and no
provider call (`providerResult` is not consulted). -/
theorem get_checkout_status_cached {db : DB} {u : User} {sid : String}
    {pr : ProviderStatus} {now : Int} {t : PaymentTransaction}
    (hT : db.transactions.find? (fun x => x.sessionId == sid) = some t)
    (hTu : t.userId = u.id)
    (hterm : terminalStates.contains t.paymentStatus = true) :
    get_checkout_status db u sid pr now =
      .ok ({ status := t.paymentStatus, paymentStatus := t.paymentStatus
             amountTotal := pyTrunc (t.amount * 100), currency := t.currency
             metaBookingId := t.metaBookingId }, db) := by
  unfold get_checkout_status
  rw [hT]
  simp only [hTu, bne_self_eq_false, Bool.false_eq_true, if_false, hterm, if_true]

theorem get_checkout_status_confirms {db : DB} {u : User} {sid : String}
    {pr : ProviderStatus} {now : Int} {t : PaymentTransaction} {bk : Booking}
    (hT : db.transactions.find? (fun x => x.sessionId == sid) = some t)
    (hTu : t.userId = u.id)
    (hnt : terminalStates.contains t.paymentStatus = false)
    (hpr : pr.paymentStatus = "paid")
    (hB : db.bookings.find? (fun b => b.id == t.metaBookingId) = some bk)
    (hBs : ¬ bk.status = "confirmed") :
    ∃ r db1, get_checkout_status db u sid pr now = .ok (r, db1) ∧
      db1.users = db.users ∧ db1.properties = db.properties ∧
      db1.bookings = updateOne (fun b => b.id == t.metaBookingId)
        (fun b => { b with status := "confirmed", paymentStatus := "paid" })
        db.bookings ∧
      db1.transactions = updateOne (fun x => x.sessionId == sid)
        (fun x => { x with paymentStatus := pr.paymentStatus, updatedAt := now })
        db.transactions ∧
      db1.confirmEmails =
        (if (db.users.find? (fun w => w.id == t.userId)).isSome
         then db.confirmEmails + 1 else db.confirmEmails) ∧
      db1.cancelEmails = db.cancelEmails ∧
      db1.providerCalls = db.providerCalls + 1 := by
  unfold get_checkout_status
  rw [hT]
  simp only [hTu, bne_self_eq_false, Bool.false_eq_true, if_false, hnt, hpr,
    beq_self_eq_true, if_true]
  rw [hB]
  simp only [bne_iff_ne, ne_eq, hBs, not_false_eq_true, if_true]
  cases hu : db.users.find? (fun w => w.id == u.id) with
  | none => exact ⟨_, _, rfl, rfl, rfl, rfl, rfl, by simp [hTu, hu], rfl, rfl⟩
  | some w => exact ⟨_, _, rfl, rfl, rfl, rfl, rfl, by simp [hTu, hu], rfl, rfl⟩

theorem stripe_webhook_applies {db : DB} {ev : WebhookEvent} {now : Int}
    {t : PaymentTransaction}
    (hev : successEventTypes.contains ev.eventType = true)
    (hT : db.transactions.find? (fun x => x.sessionId == ev.sessionId) = some t)
    (hTp : ¬ t.paymentStatus = "paid") :
    stripe_webhook db ev now = .ok ("success",
      { db with
        transactions := updateOne (fun x => x.sessionId == ev.sessionId)
          (fun x => { x with paymentStatus := ev.paymentStatus, updatedAt := now })
          db.transactions
        bookings := updateOne (fun b => b.id == t.metaBookingId)
          (fun b => { b with status := "confirmed", paymentStatus := "paid" })
          db.bookings }) := by
  unfold stripe_webhook
  rw [if_pos hev, hT]
  simp only [bne_iff_ne, ne_eq, hTp, not_false_eq_true, if_true]

theorem stripe_webhook_noop {db : DB} {ev : WebhookEvent} {now : Int}
    (h : successEventTypes.contains ev.eventType = false ∨
      ∀ t, db.transactions.find? (fun x => x.sessionId == ev.sessionId) = some t →
        t.paymentStatus = "paid") :
    stripe_webhook db ev now = .ok ("success", db) := by
  unfold stripe_webhook
  by_cases hev : successEventTypes.contains ev.eventType
  · rw [if_pos hev]
    rcases h with h | h
    · rw [hev] at h
      cases h
    · cases hT : db.transactions.find? (fun x => x.sessionId == ev.sessionId) with
      | none => rfl
      | some t => simp [h t hT]
  · rw [if_neg hev]

theorem get_checkout_status_state {db : DB} {u : User} {sid : String}
    {pr : ProviderStatus} {now : Int} {t : PaymentTransaction}
    (hT : db.transactions.find? (fun x => x.sessionId == sid) = some t)
    (hTu : t.userId = u.id) :
    ∃ r db1, get_checkout_status db u sid pr now = .ok (r, db1) ∧
      ((terminalStates.contains t.paymentStatus = true ∧ db1 = db) ∨
       (terminalStates.contains t.paymentStatus = false ∧
        db1.transactions = updateOne (fun x => x.sessionId == sid)
          (fun x => { x with paymentStatus := pr.paymentStatus, updatedAt := now })
          db.transactions)) := by
  unfold get_checkout_status
  rw [hT]
  simp only [hTu, bne_self_eq_false, Bool.false_eq_true, if_false]
  by_cases hc : terminalStates.contains t.paymentStatus
  · rw [if_pos hc]
    exact ⟨_, _, rfl, Or.inl ⟨hc, rfl⟩⟩
  · rw [if_neg hc]
    refine ⟨_, _, rfl, Or.inr ⟨by simpa using hc, ?_⟩⟩
    repeat' split
    all_goals rfl

theorem createBooking_bookings (db : DB) (u : User) (pid : String)
    (ci co : Int) (nid : String) (now : Int) :
    (applyOp db (.createBooking u pid ci co nid now)).bookings = db.bookings ∨
    ∃ bk : Booking, bk.id = nid ∧ bk.status = "pending" ∧ bk.paymentStatus = "pending" ∧
      bk.stripeSessionId = none ∧
      (applyOp db (.createBooking u pid ci co nid now)).bookings = db.bookings ++ [bk] := by
  simp only [applyOp]
  unfold create_booking
  cases hp : db.properties.find? (fun p => p.id == pid) with
  | none => exact Or.inl (by first | rfl | trivial)
  | some prop =>
    by_cases hn : nightsOf ci co ≤ 0
    · simp only [hn, if_true]
      exact Or.inl (by first | rfl | trivial)
    · simp only [hn, if_false]
      by_cases hov : (db.bookings.find? (blocksBooking pid ci co)).isSome
      · simp only [hov, if_true]
        exact Or.inl (by first | rfl | trivial)
      · simp only [hov, Bool.false_eq_true, if_false]
        exact Or.inr ⟨_, rfl, rfl, rfl, rfl, rfl⟩

theorem cancelBooking_bookings (db : DB) (u : User) (bid : String) :
    (applyOp db (.cancelBooking u bid)).bookings = db.bookings ∨
    (applyOp db (.cancelBooking u bid)).bookings =
      updateOne (fun b => b.id == bid) (fun b => { b with status := "cancelled" })
        db.bookings := by
  simp only [applyOp]
  unfold cancel_booking
  cases hb : db.bookings.find? (fun b => b.id == bid) with
  | none => exact Or.inl (by first | rfl | trivial)
  | some bk =>
    by_cases hperm : (bk.userId != u.id && u.role != "admin") = true
    · simp only [hperm, if_true]
      exact Or.inl (by first | rfl | trivial)
    · simp only [hperm, if_false]
      exact Or.inr rfl

theorem createSession_bookings (db : DB) (u : User) (bid sid tid : String) (now : Int) :
    (applyOp db (.createSession u bid sid tid now)).bookings = db.bookings ∨
    (applyOp db (.createSession u bid sid tid now)).bookings =
      updateOne (fun b => b.id == bid)
        (fun b => { b with stripeSessionId := some sid }) db.bookings := by
  simp only [applyOp]
  unfold create_stripe_checkout_session
  cases hb : db.bookings.find? (fun b => b.id == bid) with
  | none => exact Or.inl (by first | rfl | trivial)
  | some bk =>
    by_cases hperm : (bk.userId != u.id) = true
    · simp only [hperm, if_true]
      exact Or.inl (by first | rfl | trivial)
    · simp only [hperm, if_false]
      by_cases hpaid : (bk.paymentStatus == "paid") = true
      · simp only [hpaid, if_true]
        exact Or.inl (by first | rfl | trivial)
      · simp only [hpaid, if_false]
        exact Or.inr rfl

theorem pollStatus_bookings (db : DB) (u : User) (sid : String)
    (res : ProviderStatus) (now : Int) :
    (applyOp db (.pollStatus u sid res now)).bookings = db.bookings ∨
    (res.paymentStatus = "paid" ∧
      ∃ mid, (applyOp db (.pollStatus u sid res now)).bookings =
        updateOne (fun b => b.id == mid)
          (fun b => { b with status := "confirmed", paymentStatus := "paid" })
          db.bookings) := by
  simp only [applyOp]
  unfold get_checkout_status
  cases hT : db.transactions.find? (fun x => x.sessionId == sid) with
  | none => exact Or.inl (by first | rfl | trivial)
  | some t =>
    by_cases hown : (t.userId != u.id) = true
    · simp only [hown, if_true]
      exact Or.inl (by first | rfl | trivial)
    · simp only [hown, Bool.false_eq_true, if_false]
      by_cases hterm : terminalStates.contains t.paymentStatus
      · simp only [hterm, if_true]
        exact Or.inl (by first | rfl | trivial)
      · simp only [hterm, Bool.false_eq_true, if_false]
        by_cases hp : (res.paymentStatus == "paid") = true
        · simp only [hp, if_true]
          cases hB : db.bookings.find? (fun b => b.id == t.metaBookingId) with
          | none => exact Or.inl (by first | rfl | trivial)
          | some bk =>
            by_cases hc : (bk.status != "confirmed") = true
            · simp only [hc, if_true]
              cases hu : db.users.find? (fun w => w.id == t.userId) with
              | none => exact Or.inr ⟨by simpa using hp, t.metaBookingId, by first | rfl | trivial⟩
              | some w => exact Or.inr ⟨by simpa using hp, t.metaBookingId, by first | rfl | trivial⟩
            · simp only [hc, Bool.false_eq_true, if_false]
              exact Or.inl (by first | rfl | trivial)
        · simp only [hp, Bool.false_eq_true, if_false]
          exact Or.inl (by first | rfl | trivial)

theorem webhook_bookings (db : DB) (ev : WebhookEvent) (now : Int) :
    (applyOp db (.webhook ev now)).bookings = db.bookings ∨
    (successEventTypes.contains ev.eventType = true ∧
      ∃ mid, (applyOp db (.webhook ev now)).bookings =
        updateOne (fun b => b.id == mid)
          (fun b => { b with status := "confirmed", paymentStatus := "paid" })
          db.bookings) := by
  simp only [applyOp]
  unfold stripe_webhook
  by_cases hev : successEventTypes.contains ev.eventType
  · rw [if_pos hev]
    cases hT : db.transactions.find? (fun x => x.sessionId == ev.sessionId) with
    | none => exact Or.inl (by first | rfl | trivial)
    | some t =>
      by_cases hTp : (t.paymentStatus != "paid") = true
      · simp only [hTp, if_true]
        exact Or.inr ⟨hev, t.metaBookingId, rfl⟩
      · simp only [hTp, if_false]
        exact Or.inl (by first | rfl | trivial)
  · rw [if_neg hev]
    exact Or.inl (by first | rfl | trivial)

/-! ### The booking invariant and how operations preserve it -/

theorem bookingInv_applyOp (db : DB) (op : Op) (h : BookingInv db) :
    BookingInv (applyOp db op) := by
  unfold BookingInv at h ⊢
  cases op with
  | createBooking u pid ci co nid now =>
    rcases createBooking_bookings db u pid ci co nid now with heq | ⟨bk, _, hs, _, _, heq⟩
    · rw [heq]; exact h
    · rw [heq]
      intro b hb
      rcases List.mem_append.mp hb with hb | hb
      · exact h b hb
      · intro hconf
        rcases List.mem_singleton.mp hb with rfl
        rw [hs] at hconf
        exact absurd hconf (by decide)
  | cancelBooking u bid =>
    rcases cancelBooking_bookings db u bid with heq | heq
    · rw [heq]; exact h
    · rw [heq]
      refine forall_mem_updateOne h ?_
      intro a _ hconf
      simp at hconf
  | createSession u bid sid tid now =>
    rcases createSession_bookings db u bid sid tid now with heq | heq
    · rw [heq]; exact h
    · rw [heq]
      refine forall_mem_updateOne h ?_
      intro a ha hconf
      exact h a ha hconf
  | pollStatus u sid res now =>
    rcases pollStatus_bookings db u sid res now with heq | ⟨_, mid, heq⟩
    · rw [heq]; exact h
    · rw [heq]
      refine forall_mem_updateOne h ?_
      intro a _ _
      rfl
  | webhook ev now =>
    rcases webhook_bookings db ev now with heq | ⟨_, mid, heq⟩
    · rw [heq]; exact h
    · rw [heq]
      refine forall_mem_updateOne h ?_
      intro a _ _
      rfl

theorem applyOp_confirms_only (op : Op) (hop : isPaymentSuccessOp op = false)
    (db : DB) : ∀ b' ∈ (applyOp db op).bookings, b'.status = "confirmed" →
      ∃ b ∈ db.bookings, b.id = b'.id ∧ b.status = "confirmed" := by
  cases op with
  | createBooking u pid ci co nid now =>
    rcases createBooking_bookings db u pid ci co nid now with heq | ⟨bk, _, hs, _, _, heq⟩
    · rw [heq]
      exact fun b' hb' hc => ⟨b', hb', rfl, hc⟩
    · rw [heq]
      intro b' hb' hc
      rcases List.mem_append.mp hb' with hb' | hb'
      · exact ⟨b', hb', rfl, hc⟩
      · rcases List.mem_singleton.mp hb' with rfl
        rw [hs] at hc
        exact absurd hc (by decide)
  | cancelBooking u bid =>
    rcases cancelBooking_bookings db u bid with heq | heq
    · rw [heq]
      exact fun b' hb' hc => ⟨b', hb', rfl, hc⟩
    · rw [heq]
      intro b' hb' hc
      rcases mem_updateOne hb' with hb' | ⟨y, hy, rfl⟩
      · exact ⟨b', hb', rfl, hc⟩
      · simp at hc
  | createSession u bid sid tid now =>
    rcases createSession_bookings db u bid sid tid now with heq | heq
    · rw [heq]
      exact fun b' hb' hc => ⟨b', hb', rfl, hc⟩
    · rw [heq]
      intro b' hb' hc
      rcases mem_updateOne hb' with hb' | ⟨y, hy, rfl⟩
      · exact ⟨b', hb', rfl, hc⟩
      · exact ⟨y, hy, rfl, hc⟩
  | pollStatus u sid res now =>
    rcases pollStatus_bookings db u sid res now with heq | ⟨hpaid, _⟩
    · rw [heq]
      exact fun b' hb' hc => ⟨b', hb', rfl, hc⟩
    · simp only [isPaymentSuccessOp] at hop
      rw [hpaid] at hop
      exact absurd hop (by decide)
  | webhook ev now =>
    rcases webhook_bookings db ev now with heq | ⟨hev, _⟩
    · rw [heq]
      exact fun b' hb' hc => ⟨b', hb', rfl, hc⟩
    · simp only [isPaymentSuccessOp] at hop
      rw [hev] at hop
      exact absurd hop (by decide)

theorem bookingInv_foldl (ops : List Op) (db0 : DB) (h : BookingInv db0) :
    BookingInv (ops.foldl applyOp db0) := by
  induction ops generalizing db0 with
  | nil => exact h
  | cons op ops ih => exact ih (applyOp db0 op) (bookingInv_applyOp db0 op h)

/-! ### Concrete states used by witnesses and counterexamples -/

def alice : User := { id := "u1", name := "Alice", email := "alice@example.com", role := "user" }

def prop1 : HotelProperty := { id := "p1", name := "Sea View", pricePerNight := 100 }

def bkPending : Booking :=
  { id := "b1", userId := "u1", propertyId := "p1", propertyName := "Sea View"
    checkIn := 0, checkOut := 86400, totalPrice := 100, status := "pending"
    paymentStatus := "pending", stripeSessionId := some "s1", createdAt := 0 }

def txnPending : PaymentTransaction :=
  { id := "t1", bookingId := "b1", userId := "u1", sessionId := "s1"
    amount := 100, currency := "usd", paymentStatus := "pending"
    metaBookingId := "b1", createdAt := 0, updatedAt := 0 }

def txnPaid : PaymentTransaction := { txnPending with paymentStatus := "paid" }

def bkConf : Booking :=
  { id := "bc", userId := "u1", propertyId := "p1", propertyName := "Sea View"
    checkIn := 0, checkOut := 172800, totalPrice := 200, status := "confirmed"
    paymentStatus := "paid", stripeSessionId := none, createdAt := 0 }

def dbInit : DB :=
  { users := [alice], properties := [prop1], bookings := [bkPending]
    transactions := [txnPending], confirmEmails := 0, cancelEmails := 0
    providerCalls := 0 }

def dbPaid : DB := { dbInit with transactions := [txnPaid] }

def dbConf : DB :=
  { users := [alice], properties := [prop1], bookings := [bkConf]
    transactions := [], confirmEmails := 0, cancelEmails := 0, providerCalls := 0 }

def evPaid : WebhookEvent :=
  { eventType := "checkout.session.completed", sessionId := "s1", paymentStatus := "paid" }

def prPaid : ProviderStatus :=
  { status := "complete", paymentStatus := "paid", amountTotal := 10000
    currency := "usd", metaBookingId := "b1" }

/-! ### Claims -/

/-- Claim C8 (counterexample): the zero-length interval `[1,1)` does
overlap `[0,2)` under the code's predicate, and an availability query with
`check_in = check_out = 1` against a confirmed booking on `[0,172800)`
reports the property as unavailable. -/
theorem zero_length_interval_can_overlap :
    overlaps 1 1 0 2 = true ∧ check_availability dbConf "p1" 1 1 = false := by
  decide

/-- Claim C8 (amended): the overlap predicate is `a < d AND c < b` and is
symmetric, but a zero-length interval `[a,a)` overlaps `[c,d)` exactly when
`c < a < d`, i.e. when the point lies strictly inside the other interval —
it is not true that a zero-length interval never overlaps anything. -/
theorem overlap_predicate_characterisation :
    (∀ a b c d : Int, overlaps a b c d = true ↔ a < d ∧ c < b) ∧
    (∀ a b c d : Int, overlaps a b c d = overlaps c d a b) ∧
    (∀ a c d : Int, overlaps a a c d = true ↔ c < a ∧ a < d) := by
  refine ⟨?_, ?_, ?_⟩
  · intro a b c d
    simp [overlaps]
  · intro a b c d
    unfold overlaps
    exact Bool.and_comm _ _
  · intro a c d
    simp only [overlaps, Bool.and_eq_true, decide_eq_true_eq]
    exact and_comm

/-- Claim C5 (counterexample): with `check_in = 0` and `check_out = 3600`
(one hour later, so strictly after), `create_booking` still fails with the
date-range validation error, because `(check_out - check_in).days = 0`. -/
theorem subday_range_rejected_counterexample :
    (0 : Int) < 3600 ∧
    create_booking dbInit alice "p1" 0 3600 "b9" 0 =
      .error ⟨400, "Check-out must be after check-in"⟩ := by
  decide

/-- Claim C5 (amended): on an existing property, `create_booking` fails
with the `InvalidRange` error exactly when `checkOut < checkIn + 86400`,
i.e. when `floor((checkOut - checkIn)/1 day) ≤ 0`; for whole-day inputs
this coincides with `checkOut ≤ checkIn`, but a positive sub-day range is
also rejected. -/
theorem invalid_range_iff_less_than_one_day (db : DB) (u : User) (pid : String)
    (ci co : Int) (nid : String) (now : Int) (prop : HotelProperty)
    (hp : db.properties.find? (fun p => p.id == pid) = some prop) :
    create_booking db u pid ci co nid now =
      .error ⟨400, "Check-out must be after check-in"⟩ ↔ co < ci + 86400 := by
  unfold create_booking
  rw [hp]
  have hiff : nightsOf ci co ≤ 0 ↔ co < ci + 86400 := by
    unfold nightsOf
    rw [Int.fdiv_eq_ediv _ (by norm_num)]
    omega
  by_cases hn : nightsOf ci co ≤ 0
  · simp only [hn, if_true]
    exact ⟨fun _ => hiff.mp hn, fun _ => trivial⟩
  · simp only [hn, if_false]
    have hco : ¬ co < ci + 86400 := fun hc => hn (hiff.mpr hc)
    simp only [hco, iff_false]
    intro hbad
    by_cases hs : (db.bookings.find? (blocksBooking pid ci co)).isSome = true
    · rw [if_pos hs] at hbad
      simp at hbad
    · rw [if_neg hs] at hbad
      simp at hbad

theorem invalid_range_iff_less_than_one_day_witness :
    (dbInit.properties.find? (fun p => p.id == "p1") = some prop1) ∧
    (create_booking dbInit alice "p1" 0 3600 "b9" 0 =
        .error ⟨400, "Check-out must be after check-in"⟩ ↔ (3600 : Int) < 0 + 86400) :=
  ⟨by decide, invalid_range_iff_less_than_one_day dbInit alice "p1" 0 3600 "b9" 0 prop1 (by decide)⟩

/-- Claim C4: a request `[a,b)` is reported unavailable — both by the
availability endpoint and by the gate inside `create_booking` — exactly
when some booking on the property with `status = "confirmed"` satisfies
`a < check_out AND check_in < b`; a booking whose status is not
`"confirmed"` (pending, cancelled) never blocks. -/
theorem availability_iff_confirmed_overlap (db : DB) (pid : String) (a b : Int)
    (u : User) (nid : String) (now : Int) (prop : HotelProperty)
    (hp : db.properties.find? (fun p => p.id == pid) = some prop)
    (hn : 0 < nightsOf a b) :
    (check_availability db pid a b = false ↔
      ∃ bk ∈ db.bookings, bk.propertyId = pid ∧ bk.status = "confirmed" ∧
        a < bk.checkOut ∧ bk.checkIn < b) ∧
    (create_booking db u pid a b nid now =
        .error ⟨400, "Property not available for selected dates"⟩ ↔
      ∃ bk ∈ db.bookings, bk.propertyId = pid ∧ bk.status = "confirmed" ∧
        a < bk.checkOut ∧ bk.checkIn < b) ∧
    (∀ bk : Booking, ¬ bk.status = "confirmed" → blocksBooking pid a b bk = false) := by
  have key : (db.bookings.find? (blocksBooking pid a b)).isSome = true ↔
      ∃ bk ∈ db.bookings, bk.propertyId = pid ∧ bk.status = "confirmed" ∧
        a < bk.checkOut ∧ bk.checkIn < b := by
    rw [List.find?_isSome]
    simp only [blocksBooking, overlaps, Bool.and_eq_true, beq_iff_eq, decide_eq_true_eq]
    tauto
  refine ⟨?_, ?_, ?_⟩
  · unfold check_availability
    rw [← key]
    cases db.bookings.find? (blocksBooking pid a b) <;> simp
  · unfold create_booking
    rw [hp]
    have hn' : ¬ nightsOf a b ≤ 0 := by omega
    simp only [hn', if_false]
    by_cases hs : (db.bookings.find? (blocksBooking pid a b)).isSome = true
    · rw [if_pos hs]
      exact ⟨fun _ => key.mp hs, fun _ => rfl⟩
    · rw [if_neg hs]
      constructor
      · intro hbad
        simp at hbad
      · intro hex
        exact absurd (key.mpr hex) hs
  · intro bk hbk
    simp [blocksBooking, hbk]

theorem availability_iff_confirmed_overlap_witness :
    ((dbConf.properties.find? (fun p => p.id == "p1") = some prop1) ∧
      0 < nightsOf 86400 259200) ∧
    ((check_availability dbConf "p1" 86400 259200 = false ↔
        ∃ bk ∈ dbConf.bookings, bk.propertyId = "p1" ∧ bk.status = "confirmed" ∧
          86400 < bk.checkOut ∧ bk.checkIn < 259200) ∧
      (create_booking dbConf alice "p1" 86400 259200 "b9" 0 =
          .error ⟨400, "Property not available for selected dates"⟩ ↔
        ∃ bk ∈ dbConf.bookings, bk.propertyId = "p1" ∧ bk.status = "confirmed" ∧
          86400 < bk.checkOut ∧ bk.checkIn < 259200) ∧
      (∀ bk : Booking, ¬ bk.status = "confirmed" →
        blocksBooking "p1" 86400 259200 bk = false)) :=
  ⟨⟨by decide, by decide⟩,
    availability_iff_confirmed_overlap dbConf "p1" 86400 259200 alice "b9" 0 prop1
      (by decide) (by decide)⟩

/-- Claim C2: the invariant `status = "confirmed" → payment_status = "paid"`
is preserved by every sequence of the five operations, and a booking
becomes confirmed only through a payment-success result (a poll answering
"paid" or a success-typed webhook event), never directly by a user action. -/
theorem confirmed_implies_paid_reachable (ops : List Op) (dbz : DB)
    (h : BookingInv dbz) :
    BookingInv (ops.foldl applyOp dbz) ∧
    (∀ op : Op, isPaymentSuccessOp op = false → ∀ db : DB,
      ∀ b' ∈ (applyOp db op).bookings, b'.status = "confirmed" →
        ∃ b ∈ db.bookings, b.id = b'.id ∧ b.status = "confirmed") :=
  ⟨bookingInv_foldl ops dbz h, fun op hop db => applyOp_confirms_only op hop db⟩

theorem confirmed_implies_paid_reachable_witness :
    BookingInv dbInit ∧
    (BookingInv
        ([Op.createBooking alice "p1" 0 259200 "b2" 0,
          Op.webhook evPaid 2, Op.pollStatus alice "s1" prPaid 3,
          Op.cancelBooking alice "b1",
          Op.createSession alice "b2" "s2" "t2" 4].foldl applyOp dbInit) ∧
      (∀ op : Op, isPaymentSuccessOp op = false → ∀ db : DB,
        ∀ b' ∈ (applyOp db op).bookings, b'.status = "confirmed" →
          ∃ b ∈ db.bookings, b.id = b'.id ∧ b.status = "confirmed")) :=
  ⟨by decide,
    confirmed_implies_paid_reachable
      [Op.createBooking alice "p1" 0 259200 "b2" 0,
        Op.webhook evPaid 2, Op.pollStatus alice "s1" prPaid 3,
        Op.cancelBooking alice "b1",
        Op.createSession alice "b2" "s2" "t2" 4] dbInit (by decide)⟩

/-- Claim C6: polling a transaction whose stored `payment_status` is
already terminal returns the cached record unchanged — the result does not
depend on the provider's answer, no provider call is counted, and the
whole stored state (the returned `DB`) is exactly the input state. -/
theorem cached_terminal_poll_no_provider_call (db : DB) (u : User)
    (sid : String) (t : PaymentTransaction) (now : Int)
    (hT : db.transactions.find? (fun x => x.sessionId == sid) = some t)
    (hTu : t.userId = u.id)
    (hterm : terminalStates.contains t.paymentStatus = true) :
    ∀ pr : ProviderStatus, get_checkout_status db u sid pr now =
      .ok ({ status := t.paymentStatus, paymentStatus := t.paymentStatus
             amountTotal := pyTrunc (t.amount * 100), currency := t.currency
             metaBookingId := t.metaBookingId }, db) :=
  fun _ => get_checkout_status_cached hT hTu hterm

theorem cached_terminal_poll_no_provider_call_witness :
    ((dbPaid.transactions.find? (fun x => x.sessionId == "s1") = some txnPaid) ∧
      txnPaid.userId = alice.id ∧
      terminalStates.contains txnPaid.paymentStatus = true) ∧
    (∀ pr : ProviderStatus, get_checkout_status dbPaid alice "s1" pr 9 =
      .ok ({ status := txnPaid.paymentStatus, paymentStatus := txnPaid.paymentStatus
             amountTotal := pyTrunc (txnPaid.amount * 100), currency := txnPaid.currency
             metaBookingId := txnPaid.metaBookingId }, dbPaid)) :=
  ⟨⟨by decide, by decide, by decide⟩,
    cached_terminal_poll_no_provider_call dbPaid alice "s1" txnPaid 9
      (by decide) (by decide) (by decide)⟩

/-- Claim C9: a successful `create_booking` stores the booking with
`total_price = nights * price_per_night` (nights the floor day count),
`status = "pending"` and `payment_status = "pending"`, appended to the
store; and no operation ever changes the `(id, total_price)` view of
existing bookings — the price is fixed at creation. -/
theorem booking_price_fixed_at_creation (db : DB) (u : User) (pid : String)
    (ci co : Int) (nid : String) (now : Int) (prop : HotelProperty)
    (hp : db.properties.find? (fun p => p.id == pid) = some prop)
    (hn : 0 < nightsOf ci co)
    (hav : db.bookings.find? (blocksBooking pid ci co) = none) :
    (∃ bk db', create_booking db u pid ci co nid now = .ok (bk, db') ∧
      bk.totalPrice = (nightsOf ci co : ℚ) * prop.pricePerNight ∧
      bk.status = "pending" ∧ bk.paymentStatus = "pending" ∧
      db'.bookings = db.bookings ++ [bk]) ∧
    (∀ (db2 : DB) (op : Op), ∃ tail,
      priceView (applyOp db2 op).bookings = priceView db2.bookings ++ tail) := by
  constructor
  · unfold create_booking
    rw [hp]
    have hn' : ¬ nightsOf ci co ≤ 0 := by omega
    simp only [hn', if_false]
    rw [if_neg (by simp [hav])]
    exact ⟨_, _, rfl, rfl, rfl, rfl, rfl⟩
  · intro db2 op
    cases op with
    | createBooking u2 pid2 ci2 co2 nid2 n2 =>
      rcases createBooking_bookings db2 u2 pid2 ci2 co2 nid2 n2 with heq | ⟨bk, _, _, _, _, heq⟩
      · exact ⟨[], by rw [heq, List.append_nil]⟩
      · refine ⟨[(bk.id, bk.totalPrice)], ?_⟩
        rw [heq]
        simp [priceView]
    | cancelBooking u2 bid2 =>
      rcases cancelBooking_bookings db2 u2 bid2 with heq | heq
      · exact ⟨[], by rw [heq, List.append_nil]⟩
      · refine ⟨[], ?_⟩
        rw [List.append_nil]
        unfold priceView
        rw [heq]
        exact map_updateOne_eq _ (fun a => rfl)
    | createSession u2 bid2 sid2 tid2 n2 =>
      rcases createSession_bookings db2 u2 bid2 sid2 tid2 n2 with heq | heq
      · exact ⟨[], by rw [heq, List.append_nil]⟩
      · refine ⟨[], ?_⟩
        rw [List.append_nil]
        unfold priceView
        rw [heq]
        exact map_updateOne_eq _ (fun a => rfl)
    | pollStatus u2 sid2 res2 n2 =>
      rcases pollStatus_bookings db2 u2 sid2 res2 n2 with heq | ⟨_, mid, heq⟩
      · exact ⟨[], by rw [heq, List.append_nil]⟩
      · refine ⟨[], ?_⟩
        rw [List.append_nil]
        unfold priceView
        rw [heq]
        exact map_updateOne_eq _ (fun a => rfl)
    | webhook ev2 n2 =>
      rcases webhook_bookings db2 ev2 n2 with heq | ⟨_, mid, heq⟩
      · exact ⟨[], by rw [heq, List.append_nil]⟩
      · refine ⟨[], ?_⟩
        rw [List.append_nil]
        unfold priceView
        rw [heq]
        exact map_updateOne_eq _ (fun a => rfl)

theorem booking_price_fixed_at_creation_witness :
    ((dbInit.properties.find? (fun p => p.id == "p1") = some prop1) ∧
      0 < nightsOf 1717200000 1717459200 ∧
      dbInit.bookings.find? (blocksBooking "p1" 1717200000 1717459200) = none) ∧
    (nightsOf 1717200000 1717459200 : ℚ) * prop1.pricePerNight = 300 ∧
    ((∃ bk db', create_booking dbInit alice "p1" 1717200000 1717459200 "b2" 5 =
          .ok (bk, db') ∧
        bk.totalPrice = (nightsOf 1717200000 1717459200 : ℚ) * prop1.pricePerNight ∧
        bk.status = "pending" ∧ bk.paymentStatus = "pending" ∧
        db'.bookings = dbInit.bookings ++ [bk]) ∧
      (∀ (db2 : DB) (op : Op), ∃ tail,
        priceView (applyOp db2 op).bookings = priceView db2.bookings ++ tail)) :=
  ⟨⟨by decide, by decide, by decide⟩,
    by rw [(by decide : nightsOf 1717200000 1717459200 = 3)]; norm_num [prop1],
    booking_price_fixed_at_creation dbInit alice "p1" 1717200000 1717459200 "b2" 5 prop1
      (by decide) (by decide) (by decide)⟩

/-- Claim C3: applying the same terminal provider result twice through the
same entry point is idempotent: the second poll returns the state produced
by the first unchanged (in particular no further notification), and a
second delivery of a "paid" webhook leaves the state of the first delivery
unchanged. -/
theorem terminal_result_idempotent (db : DB) (u : User) (sid : String)
    (t : PaymentTransaction) (pr : ProviderStatus) (ev : WebhookEvent)
    (now1 now2 now3 now4 : Int)
    (hT : db.transactions.find? (fun x => x.sessionId == sid) = some t)
    (hTu : t.userId = u.id)
    (hterm : terminalStates.contains pr.paymentStatus = true)
    (hevs : ev.sessionId = sid) (hevp : ev.paymentStatus = "paid") :
    (∃ r1 db1 r2, get_checkout_status db u sid pr now1 = .ok (r1, db1) ∧
      get_checkout_status db1 u sid pr now2 = .ok (r2, db1)) ∧
    (∃ dbw, stripe_webhook db ev now3 = .ok ("success", dbw) ∧
      stripe_webhook dbw ev now4 = .ok ("success", dbw)) := by
  subst hevs
  constructor
  · obtain ⟨r, db1, hok, hcase⟩ :=
      @get_checkout_status_state db u ev.sessionId pr now1 t hT hTu
    rcases hcase with ⟨hct, heqdb⟩ | ⟨hcf, htx⟩
    · refine ⟨r, db1,
        { status := t.paymentStatus, paymentStatus := t.paymentStatus
          amountTotal := pyTrunc (t.amount * 100), currency := t.currency
          metaBookingId := t.metaBookingId }, hok, ?_⟩
      rw [heqdb]
      exact get_checkout_status_cached hT hTu hct
    · have hfind : db1.transactions.find? (fun x => x.sessionId == ev.sessionId) =
          some { t with paymentStatus := pr.paymentStatus, updatedAt := now1 } := by
        rw [htx]
        exact find?_updateOne_self hT (fun a => rfl)
      exact ⟨r, db1, _, hok, get_checkout_status_cached hfind hTu hterm⟩
  · by_cases hev : successEventTypes.contains ev.eventType
    · by_cases hp : t.paymentStatus = "paid"
      · have h1 := @stripe_webhook_noop db ev now3
          (Or.inr (fun t' ht' => by rw [hT] at ht'; cases ht'; exact hp))
        have h2 := @stripe_webhook_noop db ev now4
          (Or.inr (fun t' ht' => by rw [hT] at ht'; cases ht'; exact hp))
        exact ⟨db, h1, h2⟩
      · have h1 := @stripe_webhook_applies db ev now3 t hev hT hp
        refine ⟨_, h1, stripe_webhook_noop (Or.inr fun t' ht' => ?_)⟩
        have hfind : (updateOne (fun x => x.sessionId == ev.sessionId)
            (fun x => { x with paymentStatus := ev.paymentStatus, updatedAt := now3 })
            db.transactions).find? (fun x => x.sessionId == ev.sessionId) =
            some { t with paymentStatus := ev.paymentStatus, updatedAt := now3 } :=
          find?_updateOne_self hT (fun a => rfl)
        have ht2 : (updateOne (fun x => x.sessionId == ev.sessionId)
            (fun x => { x with paymentStatus := ev.paymentStatus, updatedAt := now3 })
            db.transactions).find? (fun x => x.sessionId == ev.sessionId) = some t' := ht'
        rw [hfind] at ht2
        cases ht2
        exact hevp
    · have hev' : successEventTypes.contains ev.eventType = false := by
        simpa using hev
      exact ⟨db, @stripe_webhook_noop db ev now3 (Or.inl hev'),
        @stripe_webhook_noop db ev now4 (Or.inl hev')⟩

theorem terminal_result_idempotent_witness :
    ((dbInit.transactions.find? (fun x => x.sessionId == "s1") = some txnPending) ∧
      txnPending.userId = alice.id ∧
      terminalStates.contains prPaid.paymentStatus = true ∧
      evPaid.sessionId = "s1" ∧ evPaid.paymentStatus = "paid") ∧
    ((∃ r1 db1 r2, get_checkout_status dbInit alice "s1" prPaid 1 = .ok (r1, db1) ∧
        get_checkout_status db1 alice "s1" prPaid 2 = .ok (r2, db1)) ∧
      (∃ dbw, stripe_webhook dbInit evPaid 3 = .ok ("success", dbw) ∧
        stripe_webhook dbw evPaid 4 = .ok ("success", dbw))) :=
  ⟨⟨by decide, by decide, by decide, by decide, by decide⟩,
    terminal_result_idempotent dbInit alice "s1" txnPending prPaid evPaid 1 2 3 4
      (by decide) (by decide) (by decide) (by decide) (by decide)⟩

/-- Claim C7 (counterexample): a booking whose `stripe_session_id` is
already set to `"s1"` but which is not yet paid accepts a second checkout
session: the call succeeds and overwrites the stored session id with
`"s2"`. -/
theorem second_checkout_session_replaces_id :
    sessionView dbInit.bookings = [("b1", some "s1")] ∧
    (create_stripe_checkout_session dbInit alice "b1" "s2" "t2" 9).isOk = true ∧
    sessionView (applyOp dbInit (.createSession alice "b1" "s2" "t2" 9)).bookings =
      [("b1", some "s2")] := by
  decide

/-- Claim C7 (amended): the stored `stripe_session_id` is changed only by
`create_stripe_checkout_session`: it is immutable once the booking is paid
(the call then fails with `AlreadyPaid`), every other operation preserves
each booking's `(id, stripe_session_id)` view, but a further checkout
session on a not-yet-paid booking succeeds and replaces the stored id. -/
theorem session_id_update_characterisation (db : DB) (u : User)
    (bid sid tid : String) (now : Int) (bk : Booking)
    (hB : db.bookings.find? (fun b => b.id == bid) = some bk)
    (hOwn : bk.userId = u.id) :
    (bk.paymentStatus = "paid" →
      create_stripe_checkout_session db u bid sid tid now =
        .error ⟨400, "Booking already paid"⟩) ∧
    (¬ bk.paymentStatus = "paid" →
      ∃ db', create_stripe_checkout_session db u bid sid tid now = .ok (sid, db') ∧
        db'.bookings.find? (fun b => b.id == bid) =
          some { bk with stripeSessionId := some sid }) ∧
    (∀ (db2 : DB) (u2 : User) (bid2 : String),
      sessionView (applyOp db2 (.cancelBooking u2 bid2)).bookings =
        sessionView db2.bookings) ∧
    (∀ (db2 : DB) (u2 : User) (sid2 : String) (res : ProviderStatus) (n : Int),
      sessionView (applyOp db2 (.pollStatus u2 sid2 res n)).bookings =
        sessionView db2.bookings) ∧
    (∀ (db2 : DB) (ev : WebhookEvent) (n : Int),
      sessionView (applyOp db2 (.webhook ev n)).bookings =
        sessionView db2.bookings) ∧
    (∀ (db2 : DB) (u2 : User) (pid : String) (ci co : Int) (nid : String) (n : Int),
      ∃ tail, sessionView (applyOp db2 (.createBooking u2 pid ci co nid n)).bookings =
        sessionView db2.bookings ++ tail ∧ (tail = [] ∨ tail = [(nid, none)])) := by
  refine ⟨?_, ?_, ?_, ?_, ?_, ?_⟩
  · intro hpaid
    unfold create_stripe_checkout_session
    rw [hB]
    simp only [hOwn, bne_self_eq_false, Bool.false_eq_true, if_false, hpaid,
      beq_self_eq_true, if_true]
  · intro hnp
    unfold create_stripe_checkout_session
    rw [hB]
    simp only [hOwn, bne_self_eq_false, Bool.false_eq_true, if_false]
    have hcond : (bk.paymentStatus == "paid") = false := by
      simpa using hnp
    rw [hcond]
    simp only [Bool.false_eq_true, if_false]
    refine ⟨_, rfl, ?_⟩
    have hfind : (updateOne (fun b => b.id == bid)
        (fun b => { b with stripeSessionId := some sid }) db.bookings).find?
        (fun b => b.id == bid) = some { bk with stripeSessionId := some sid } :=
      find?_updateOne_self hB (fun a => rfl)
    rw [hOwn] at hfind
    exact hfind
  · intro db2 u2 bid2
    rcases cancelBooking_bookings db2 u2 bid2 with heq | heq
    · rw [heq]
    · unfold sessionView
      rw [heq]
      exact map_updateOne_eq _ (fun a => rfl)
  · intro db2 u2 sid2 res n
    rcases pollStatus_bookings db2 u2 sid2 res n with heq | ⟨_, mid, heq⟩
    · rw [heq]
    · unfold sessionView
      rw [heq]
      exact map_updateOne_eq _ (fun a => rfl)
  · intro db2 ev n
    rcases webhook_bookings db2 ev n with heq | ⟨_, mid, heq⟩
    · rw [heq]
    · unfold sessionView
      rw [heq]
      exact map_updateOne_eq _ (fun a => rfl)
  · intro db2 u2 pid ci co nid n
    rcases createBooking_bookings db2 u2 pid ci co nid n with heq |
      ⟨bk2, hid, _, _, hsess, heq⟩
    · exact ⟨[], by rw [heq, List.append_nil], Or.inl rfl⟩
    · refine ⟨[(nid, none)], ?_, Or.inr rfl⟩
      rw [heq]
      simp [sessionView, hid, hsess]

theorem session_id_update_characterisation_witness :
    ((dbInit.bookings.find? (fun b => b.id == "b1") = some bkPending) ∧
      bkPending.userId = alice.id) ∧
    (¬ bkPending.paymentStatus = "paid" →
      ∃ db', create_stripe_checkout_session dbInit alice "b1" "s2" "t2" 9 =
          .ok ("s2", db') ∧
        db'.bookings.find? (fun b => b.id == "b1") =
          some { bkPending with stripeSessionId := some "s2" }) :=
  ⟨⟨by decide, by decide⟩,
    (session_id_update_characterisation dbInit alice "b1" "s2" "t2" 9 bkPending
      (by decide) (by decide)).2.1⟩

def bkCancelled : Booking := { bkPending with status := "cancelled" }

def dbCancelled : DB := { dbInit with bookings := [bkCancelled] }

/-- Claim C10 (implicit): neither payment path checks for cancellation — if
a booking is cancelled but its transaction is still pending, a "paid"
result through `get_checkout_status` or through `stripe_webhook` sets the
booking back to `(confirmed, paid)`. -/
theorem cancelled_booking_reconfirmed_by_paid (db : DB) (u : User)
    (sid : String) (t : PaymentTransaction) (bk : Booking)
    (pr : ProviderStatus) (ev : WebhookEvent) (now1 now2 : Int)
    (hT : db.transactions.find? (fun x => x.sessionId == sid) = some t)
    (hTu : t.userId = u.id) (hTp : t.paymentStatus = "pending")
    (hB : db.bookings.find? (fun b => b.id == t.metaBookingId) = some bk)
    (hBc : bk.status = "cancelled")
    (hpr : pr.paymentStatus = "paid")
    (hev : successEventTypes.contains ev.eventType = true)
    (hevs : ev.sessionId = sid) (hevp : ev.paymentStatus = "paid") :
    (∃ r db1, get_checkout_status db u sid pr now1 = .ok (r, db1) ∧
      db1.bookings.find? (fun b => b.id == t.metaBookingId) =
        some { bk with status := "confirmed", paymentStatus := "paid" }) ∧
    (∃ db2, stripe_webhook db ev now2 = .ok ("success", db2) ∧
      db2.bookings.find? (fun b => b.id == t.metaBookingId) =
        some { bk with status := "confirmed", paymentStatus := "paid" }) := by
  subst hevs
  constructor
  · have hnt : terminalStates.contains t.paymentStatus = false := by
      rw [hTp]
      decide
    have hBs : ¬ bk.status = "confirmed" := by
      rw [hBc]
      decide
    obtain ⟨r, db1, hok, _, _, hbk, _, _, _, _⟩ :=
      get_checkout_status_confirms hT hTu hnt hpr hB hBs
    refine ⟨r, db1, hok, ?_⟩
    rw [hbk]
    exact find?_updateOne_self hB (fun a => rfl)
  · have h1 := @stripe_webhook_applies db ev now2 t hev hT (by rw [hTp]; decide)
    refine ⟨_, h1, ?_⟩
    have hfind : (updateOne (fun b => b.id == t.metaBookingId)
        (fun b => { b with status := "confirmed", paymentStatus := "paid" })
        db.bookings).find? (fun b => b.id == t.metaBookingId) =
        some { bk with status := "confirmed", paymentStatus := "paid" } :=
      find?_updateOne_self hB (fun a => rfl)
    exact hfind

theorem cancelled_booking_reconfirmed_by_paid_witness :
    ((dbCancelled.transactions.find? (fun x => x.sessionId == "s1") = some txnPending) ∧
      txnPending.userId = alice.id ∧ txnPending.paymentStatus = "pending" ∧
      dbCancelled.bookings.find? (fun b => b.id == txnPending.metaBookingId) =
        some bkCancelled ∧
      bkCancelled.status = "cancelled") ∧
    ((∃ r db1, get_checkout_status dbCancelled alice "s1" prPaid 1 = .ok (r, db1) ∧
        db1.bookings.find? (fun b => b.id == txnPending.metaBookingId) =
          some { bkCancelled with status := "confirmed", paymentStatus := "paid" }) ∧
      (∃ db2, stripe_webhook dbCancelled evPaid 2 = .ok ("success", db2) ∧
        db2.bookings.find? (fun b => b.id == txnPending.metaBookingId) =
          some { bkCancelled with status := "confirmed", paymentStatus := "paid" })) :=
  ⟨⟨by decide, by decide, by decide, by decide, by decide⟩,
    cancelled_booking_reconfirmed_by_paid dbCancelled alice "s1" txnPending
      bkCancelled prPaid evPaid 1 2 (by decide) (by decide) (by decide) (by decide)
      (by decide) (by decide) (by decide) (by decide) (by decide)⟩

/-- Claim C1 (counterexample): with the webhook processing the "paid"
result first and the poll second, both calls succeed and the booking ends
`(confirmed, paid)`, but zero confirmation notifications are sent in
total — the webhook path sends none and the poll then short-circuits on
the cached terminal transaction. This refutes "exactly one confirmation
notification ... in either sequential order". -/
theorem webhook_first_sends_no_notification :
    dbInit.confirmEmails = 0 ∧
    ∃ db1 r, stripe_webhook dbInit evPaid 5 = .ok ("success", db1) ∧
      get_checkout_status db1 alice "s1" prPaid 6 = .ok (r, db1) ∧
      db1.confirmEmails = 0 ∧
      db1.bookings.find? (fun b => b.id == "b1") =
        some { bkPending with status := "confirmed", paymentStatus := "paid" } := by
  refine ⟨by decide, _, _, rfl, rfl, ?_, ?_⟩ <;> decide

/-- Claim C1 (amended): for a pending session whose provider result is
"paid", both sequential orders leave the booking `(confirmed, paid)`; the
poll-then-webhook order sends exactly one confirmation notification, while
the webhook-then-poll order sends none (the webhook path never notifies
and the later poll returns the cached terminal state unchanged). -/
theorem paid_reconciliation_both_orders (db : DB) (u : User) (sid : String)
    (t : PaymentTransaction) (bk : Booking) (pr : ProviderStatus)
    (ev : WebhookEvent) (now1 now2 : Int)
    (hT : db.transactions.find? (fun x => x.sessionId == sid) = some t)
    (hTu : t.userId = u.id) (hTp : t.paymentStatus = "pending")
    (hB : db.bookings.find? (fun b => b.id == t.metaBookingId) = some bk)
    (hBs : ¬ bk.status = "confirmed")
    (hU : (db.users.find? (fun w => w.id == t.userId)).isSome = true)
    (hpr : pr.paymentStatus = "paid")
    (hev : successEventTypes.contains ev.eventType = true)
    (hevs : ev.sessionId = sid) (hevp : ev.paymentStatus = "paid") :
    (∃ r db1, get_checkout_status db u sid pr now1 = .ok (r, db1) ∧
      stripe_webhook db1 ev now2 = .ok ("success", db1) ∧
      db1.confirmEmails = db.confirmEmails + 1 ∧
      db1.bookings.find? (fun b => b.id == t.metaBookingId) =
        some { bk with status := "confirmed", paymentStatus := "paid" }) ∧
    (∃ db2 r2, stripe_webhook db ev now1 = .ok ("success", db2) ∧
      get_checkout_status db2 u sid pr now2 = .ok (r2, db2) ∧
      db2.confirmEmails = db.confirmEmails ∧
      db2.bookings.find? (fun b => b.id == t.metaBookingId) =
        some { bk with status := "confirmed", paymentStatus := "paid" }) := by
  subst hevs
  constructor
  · have hnt : terminalStates.contains t.paymentStatus = false := by
      rw [hTp]
      decide
    obtain ⟨r, db1, hok, hus, hps, hbk, htx, hce, hcx, hpc⟩ :=
      get_checkout_status_confirms hT hTu hnt hpr hB hBs
    refine ⟨r, db1, hok, ?_, ?_, ?_⟩
    · apply stripe_webhook_noop
      refine Or.inr fun t' ht' => ?_
      rw [htx] at ht'
      have hfind : (updateOne (fun x => x.sessionId == ev.sessionId)
          (fun x => { x with paymentStatus := pr.paymentStatus, updatedAt := now1 })
          db.transactions).find? (fun x => x.sessionId == ev.sessionId) =
          some { t with paymentStatus := pr.paymentStatus, updatedAt := now1 } :=
        find?_updateOne_self hT (fun a => rfl)
      rw [hfind] at ht'
      cases ht'
      exact hpr
    · rw [hce, if_pos hU]
    · rw [hbk]
      exact find?_updateOne_self hB (fun a => rfl)
  · have h1 := @stripe_webhook_applies db ev now1 t hev hT (by rw [hTp]; decide)
    have hfindT : (updateOne (fun x => x.sessionId == ev.sessionId)
        (fun x => { x with paymentStatus := ev.paymentStatus, updatedAt := now1 })
        db.transactions).find? (fun x => x.sessionId == ev.sessionId) =
        some { t with paymentStatus := ev.paymentStatus, updatedAt := now1 } :=
      find?_updateOne_self hT (fun a => rfl)
    have hfindB : (updateOne (fun b => b.id == t.metaBookingId)
        (fun b => { b with status := "confirmed", paymentStatus := "paid" })
        db.bookings).find? (fun b => b.id == t.metaBookingId) =
        some { bk with status := "confirmed", paymentStatus := "paid" } :=
      find?_updateOne_self hB (fun a => rfl)
    have hterm2 : terminalStates.contains
        ({ t with paymentStatus := ev.paymentStatus, updatedAt := now1 } :
          PaymentTransaction).paymentStatus = true := by
      show terminalStates.contains ev.paymentStatus = true
      rw [hevp]
      decide
    have hTu2 : ({ t with paymentStatus := ev.paymentStatus, updatedAt := now1 } :
        PaymentTransaction).userId = u.id := hTu
    exact ⟨_, _, h1, get_checkout_status_cached hfindT hTu2 hterm2, rfl, hfindB⟩

theorem paid_reconciliation_both_orders_witness :
    ((dbInit.transactions.find? (fun x => x.sessionId == "s1") = some txnPending) ∧
      txnPending.paymentStatus = "pending" ∧
      dbInit.bookings.find? (fun b => b.id == txnPending.metaBookingId) =
        some bkPending ∧
      ¬ bkPending.status = "confirmed" ∧
      (dbInit.users.find? (fun w => w.id == txnPending.userId)).isSome = true) ∧
    ((∃ r db1, get_checkout_status dbInit alice "s1" prPaid 1 = .ok (r, db1) ∧
        stripe_webhook db1 evPaid 2 = .ok ("success", db1) ∧
        db1.confirmEmails = dbInit.confirmEmails + 1 ∧
        db1.bookings.find? (fun b => b.id == txnPending.metaBookingId) =
          some { bkPending with status := "confirmed", paymentStatus := "paid" }) ∧
      (∃ db2 r2, stripe_webhook dbInit evPaid 1 = .ok ("success", db2) ∧
        get_checkout_status db2 alice "s1" prPaid 2 = .ok (r2, db2) ∧
        db2.confirmEmails = dbInit.confirmEmails ∧
        db2.bookings.find? (fun b => b.id == txnPending.metaBookingId) =
          some { bkPending with status := "confirmed", paymentStatus := "paid" })) :=
  ⟨⟨by decide, by decide, by decide, by decide, by decide⟩,
    paid_reconciliation_both_orders dbInit alice "s1" txnPending bkPending
      prPaid evPaid 1 2 (by decide) (by decide) (by decide) (by decide)
      (by decide) (by decide) (by decide) (by decide) (by decide) (by decide)⟩
